import Mathlib

/-!
Verification development for the EventBookingPlatform backend
(`src/backend/app`), a FastAPI service for event-booking and contact
inquiries.  The service layer (`services/booking_service.py`,
`services/contact_service.py`) and the Pydantic schema validators
(`schemas/booking.py`) are shallowly embedded below:

* dates are day numbers (`Int`), wall-clock instants are seconds (`Int`);
* SQLAlchemy tables are lists of records, in insertion order, and
  `query(...).filter(...).first()` is `List.find?`;
* monetary `Decimal` columns are `Rat`;
* raised `ValidationError`s become `Except` errors carrying the
  `error_code` and the payload fields the business logic computes;
* outbound e-mail dispatch is recorded as a list of requested messages.
-/

/-- Python `str.lower()` as used on the ASCII e-mail/subject/message data
of this service (`Char.toLower` lower-cases exactly `A`-`Z`). -/
def pyLower (s : String) : String := ⟨s.data.map Char.toLower⟩

/-- `takesLead n h` holds when the char list `n` is an initial segment of
`h`; building block for the Python substring operator `in`. -/
def takesLead : List Char → List Char → Bool
  | [], _ => true
  | _ :: _, [] => false
  | n :: ns, h :: hs => n == h && takesLead ns hs

/-- `hasSub n h` : `n` occurs as a contiguous run inside `h`. -/
def hasSub (n : List Char) : List Char → Bool
  | [] => n.isEmpty
  | c :: rest => takesLead n (c :: rest) || hasSub n rest

/-- Python `needle in hay` (substring containment) on strings. -/
def py_in (needle hay : String) : Bool := hasSub needle.data hay.data

/-- `EventType` from `src/backend/app/models/booking.py`. -/
inductive EventType
  | wedding | birthday | corporate | anniversary | graduation
  | baby_shower | gender_reveal | proposal | engagement
  | retirement | holiday | other
  deriving DecidableEq

/-- `BookingStatus` from `src/backend/app/models/booking.py`. -/
inductive BookingStatus
  | pending | reviewed | contacted | quoted | confirmed | cancelled | completed
  deriving DecidableEq

/-- `ContactType` from `src/backend/app/models/contact.py`. -/
inductive ContactType
  | general | pricing | availability | services | partnership
  | feedback | complaint | other
  deriving DecidableEq

/-- `ContactStatus` from `src/backend/app/models/contact.py`. -/
inductive ContactStatus
  | new | read | replied | resolved | archived
  deriving DecidableEq

/-- `ContactPriority` from `src/backend/app/models/contact.py`. -/
inductive ContactPriority
  | low | normal | high | urgent
  deriving DecidableEq

/-- The fields of the `BookingCreate` Pydantic schema
(`src/backend/app/schemas/booking.py`) that the booking service logic
reads.  `event_date` is a day number; budgets are `Rat` for `Decimal`. -/
structure BookingCreate where
  event_type : EventType
  event_date : Int
  guest_count : Nat
  budget_min : Option Rat
  budget_max : Option Rat
  budget_flexible : Bool
  contact_name : String
  contact_email : String
  previous_client : Bool
  deriving DecidableEq

/-- A persisted `Booking` row (`src/backend/app/models/booking.py`),
restricted to the columns the service logic reads or writes. -/
structure Booking where
  id : Nat
  event_type : EventType
  event_date : Int
  guest_count : Nat
  budget_min : Option Rat
  budget_max : Option Rat
  contact_name : String
  contact_email : String
  previous_client : Bool
  status : BookingStatus
  admin_notes : Option String
  is_priority : Bool
  is_archived : Bool
  requires_consultation : Bool
  created_at : Int
  updated_at : Option Int
  contacted_at : Option Int
  quoted_at : Option Int
  deriving DecidableEq

/-- The `validate_budget_range` Pydantic validator on `BookingBase`
(`src/backend/app/schemas/booking.py`, lines 51-57): once `budget_min` is
known, the `budget_max` value `v` is rejected exactly when both are
present and `v < budget_min`. -/
def validate_budget_range (budget_min v : Option Rat) : Except String (Option Rat) :=
  match v, budget_min with
  | some vmax, some vmin =>
      if vmax < vmin then
        .error "Maximum budget must be greater than minimum budget"
      else .ok v
  | _, _ => .ok v

/-- The five boolean priority factors of `BookingService._determine_priority`
(`src/backend/app/services/booking_service.py`, lines 303-323), in source
order: more than 200 guests; `budget_min` present (truthy) and above
10000; event within 60 days; corporate event; previous client. -/
def priority_conditions (today : Int) (d : BookingCreate) : List Bool :=
  [ decide (d.guest_count > 200),
    (match d.budget_min with
     | some m => decide (0 < m) && decide (m > 10000)
     | none => false),
    decide (d.event_date - today ≤ 60),
    decide (d.event_type = EventType.corporate),
    d.previous_client ]

/-- `BookingService._determine_priority`: `return any(priority_conditions)`. -/
def determine_priority (today : Int) (d : BookingCreate) : Bool :=
  (priority_conditions today d).any id

/-- Typed errors raised by the enhanced `_validate_booking_creation`
(`src/backend/app/services/booking_service.py`, lines 423-469), carrying
the payload fields the business logic computes (narrative message text and
static contact-info entries of the `details` dict are not modelled). -/
inductive BookingError
  | duplicate_booking (existing_booking_id : Nat) (reference_number : String)
      (existing_status : BookingStatus)
  | date_too_far (max_booking_date : Int)
  | short_notice_large_event (days_until_event : Int) (guest_count : Nat)
      (rush_booking_available : Bool)
  deriving DecidableEq

/-- The `error_code` string attached at each `raise ValidationError(...)`
site of the enhanced `_validate_booking_creation`. -/
def BookingError.error_code : BookingError → String
  | .duplicate_booking _ _ _ => "DUPLICATE_BOOKING"
  | .date_too_far _ => "DATE_TOO_FAR"
  | .short_notice_large_event _ _ _ => "SHORT_NOTICE_LARGE_EVENT"

/-- Left-pad with zeros, as in Python `f"{id:06d}"`. -/
def zfill (n : Nat) (s : String) : String :=
  if s.length ≥ n then s else ⟨List.replicate (n - s.length) '0'⟩ ++ s

/-- Reference number `f"BK{existing_booking.id:06d}"` built by
`_create_duplicate_booking_error` (`booking_service.py`, line 480). -/
def reference_number (id : Nat) : String := "BK" ++ zfill 6 (toString id)

/-- The duplicate query of `_validate_booking_creation`: first stored
booking with the submission's lower-cased e-mail, the same event date and
status other than CANCELLED (`booking_service.py`, lines 427-433). -/
def booking_conflict (db : List Booking) (d : BookingCreate) : Option Booking :=
  db.find? (fun b =>
    b.contact_email == pyLower d.contact_email &&
    b.event_date == d.event_date &&
    b.status != BookingStatus.cancelled)

/-- The enhanced `_validate_booking_creation`
(`src/backend/app/services/booking_service.py`, lines 423-474): duplicate
check, then the 730-day look-ahead bound, then the short-notice check for
events with more than 50 guests less than 7 days away (the final
small-wedding branch only logs a warning and is not an error path). -/
def validate_booking_creation (db : List Booking) (today : Int)
    (d : BookingCreate) : Except BookingError Unit :=
  match booking_conflict db d with
  | some existing =>
      .error (.duplicate_booking existing.id (reference_number existing.id)
        existing.status)
  | none =>
      let max_future_date := today + 730
      if d.event_date > max_future_date then
        .error (.date_too_far max_future_date)
      else
        let days_until_event := d.event_date - today
        if days_until_event < 7 ∧ d.guest_count > 50 then
          .error (.short_notice_large_event days_until_event d.guest_count true)
        else
          .ok ()

/-- `BookingService.create_booking` (`booking_service.py`, lines 27-94):
run the validation pipeline; on success persist a new row with the
lower-cased e-mail, status PENDING, the computed priority flag,
`requires_consultation = True`, and return it.  A validation failure
leaves the store untouched (the session is rolled back). -/
def create_booking (db : List Booking) (today now : Int) (next_id : Nat)
    (d : BookingCreate) : Except BookingError (List Booking × Booking) :=
  match validate_booking_creation db today d with
  | .error e => .error e
  | .ok _ =>
      let b : Booking :=
        { id := next_id
          event_type := d.event_type
          event_date := d.event_date
          guest_count := d.guest_count
          budget_min := d.budget_min
          budget_max := d.budget_max
          contact_name := d.contact_name
          contact_email := pyLower d.contact_email
          previous_client := d.previous_client
          status := BookingStatus.pending
          admin_notes := none
          is_priority := determine_priority today d
          is_archived := false
          requires_consultation := true
          created_at := now
          updated_at := none
          contacted_at := none
          quoted_at := none }
      .ok (db ++ [b], b)

/-- Processing a sequence of booking submissions through
`create_booking`: a rejected submission leaves the store unchanged, an
accepted one extends it and consumes the next id. -/
def process_bookings (today now : Int) :
    List Booking → Nat → List BookingCreate → List Booking
  | db, _, [] => db
  | db, next_id, d :: ds =>
      match create_booking db today now next_id d with
      | .error _ => process_bookings today now db next_id ds
      | .ok (db2, _) => process_bookings today now db2 (next_id + 1) ds

/-- Admin update payload `BookingUpdate`
(`src/backend/app/schemas/booking.py`, lines 89-101); an outer `none`
means the field was not set in the request (`exclude_unset`), mirroring
optional request fields whose values may themselves be null. -/
structure BookingUpdate where
  status : Option BookingStatus := none
  admin_notes : Option (Option String) := none
  is_priority : Option Bool := none
  is_archived : Option Bool := none
  requires_consultation : Option Bool := none
  contacted_at : Option (Option Int) := none
  quoted_at : Option (Option Int) := none
  deriving DecidableEq

/-- The `setattr` loop of `BookingService.update_booking`
(`booking_service.py`, lines 143-145): copy every field that was set in
the request onto the row. -/
def apply_update_fields (b : Booking) (u : BookingUpdate) : Booking :=
  let b := match u.status with | some s => { b with status := s } | none => b
  let b := match u.admin_notes with | some v => { b with admin_notes := v } | none => b
  let b := match u.is_priority with | some v => { b with is_priority := v } | none => b
  let b := match u.is_archived with | some v => { b with is_archived := v } | none => b
  let b := match u.requires_consultation with
           | some v => { b with requires_consultation := v } | none => b
  let b := match u.contacted_at with | some v => { b with contacted_at := v } | none => b
  let b := match u.quoted_at with | some v => { b with quoted_at := v } | none => b
  b

/-- Body of `BookingService.update_booking` on the fetched row
(`booking_service.py`, lines 142-155): apply the set fields, refresh
`updated_at`, then stamp `contacted_at` (resp. `quoted_at`) when the
update sets status CONTACTED (resp. QUOTED) and the timestamp is unset. -/
def update_booking_record (now : Int) (b : Booking) (u : BookingUpdate) : Booking :=
  let b1 := apply_update_fields b u
  let b2 := { b1 with updated_at := some now }
  match u.status with
  | none => b2
  | some s =>
      if s = BookingStatus.contacted ∧ b2.contacted_at = none then
        { b2 with contacted_at := some now }
      else if s = BookingStatus.quoted ∧ b2.quoted_at = none then
        { b2 with quoted_at := some now }
      else b2

/-- `BookingService.get_booking`: first row with the given id. -/
def get_booking (db : List Booking) (booking_id : Nat) : Option Booking :=
  db.find? (fun b => b.id == booking_id)

/-- Replace the first element satisfying `p` by its image under `f`
(SQLAlchemy mutates the single row returned by `.first()`). -/
def modify_first (p : α → Bool) (f : α → α) : List α → List α
  | [] => []
  | x :: xs => if p x then f x :: xs else x :: modify_first p f xs

/-- `BookingService.update_booking` (`booking_service.py`, lines 136-161)
at the store level: returns the updated store and the updated row, or
leaves the store unchanged when the id is unknown. -/
def update_booking (now : Int) (db : List Booking) (booking_id : Nat)
    (u : BookingUpdate) : List Booking × Option Booking :=
  match get_booking db booking_id with
  | none => (db, none)
  | some b =>
      let b2 := update_booking_record now b u
      (modify_first (fun x => x.id == booking_id) (fun _ => b2) db, some b2)

/-- `BookingService.delete_booking` (`booking_service.py`, lines 163-174):
a soft delete that only sets `is_archived` and refreshes `updated_at` on
the matching row; the row itself stays in the store. -/
def delete_booking (now : Int) (db : List Booking) (booking_id : Nat) :
    List Booking × Bool :=
  match get_booking db booking_id with
  | none => (db, false)
  | some _ =>
      (modify_first (fun x => x.id == booking_id)
        (fun x => { x with is_archived := true, updated_at := some now }) db,
       true)

/-- The fields of the `ContactCreate` Pydantic schema
(`src/backend/app/schemas/contact.py`) that the contact service logic
reads. -/
structure ContactCreate where
  name : String
  email : String
  company : Option String
  subject : String
  message : String
  contact_type : ContactType
  source : Option String
  is_newsletter_signup : Bool
  deriving DecidableEq

/-- A persisted `Contact` row (`src/backend/app/models/contact.py`),
restricted to the columns the service logic reads or writes. -/
structure Contact where
  id : Nat
  name : String
  email : String
  company : Option String
  subject : String
  message : String
  contact_type : ContactType
  source : Option String
  is_newsletter_signup : Bool
  status : ContactStatus
  priority : ContactPriority
  is_spam : Bool
  requires_follow_up : Bool
  created_at : Int
  updated_at : Option Int
  replied_at : Option Int
  read_at : Option Int
  deriving DecidableEq

/-- The spam keyword denylist of `ContactService._detect_spam`
(`src/backend/app/services/contact_service.py`, lines 404-408). -/
def spam_keywords : List String :=
  [ "lottery", "winner", "million", "inheritance", "viagra", "casino",
    "loan", "credit", "debt", "free money", "make money fast",
    "click here", "limited time", "act now", "guaranteed" ]

/-- The disposable-domain list of `_detect_spam` (lines 437-439). -/
def suspicious_domains : List String :=
  [ "tempmail", "10minutemail", "guerrillamail", "mailinator" ]

/-- Characters accepted inside a URL by the pattern of `_detect_spam`
(line 418).  The regex char classes `[a-zA-Z]`, `[0-9]`, the `$`-to-`_`
range of the class written as `[$-_@.&+]`, the class of literal
`! * \ ( ) ,`, and the `%hh` escape collapse to: the `$`..`_` code-point
range (which already covers digits, upper-case letters, `%`, `\`, and the
other listed symbols), lower-case letters, and `!`. -/
def is_url_char (c : Char) : Bool :=
  (decide ('$' ≤ c) && decide (c ≤ '_')) ||
  (decide ('a' ≤ c) && decide (c ≤ 'z')) || c == '!'

/-- The scheme part `http[s]?://` of the URL pattern: the optional greedy
`[s]?` on literal text reduces to trying `https://` before `http://`. -/
def match_url_scheme : List Char → Option (List Char)
  | 'h' :: 't' :: 't' :: 'p' :: 's' :: ':' :: '/' :: '/' :: rest => some rest
  | 'h' :: 't' :: 't' :: 'p' :: ':' :: '/' :: '/' :: rest => some rest
  | _ => none

/-- Greedily consume the run of URL characters (the `(...)+` body is a
single-character alternation, so the greedy match takes the maximal run);
returns its length and the remaining text. -/
def take_url_run : List Char → Nat × List Char
  | [] => (0, [])
  | c :: rest =>
      if is_url_char c then
        let (n, r) := take_url_run rest
        (n + 1, r)
      else (0, c :: rest)

/-- `re.findall` counting of non-overlapping URL matches, scanning left to
right and resuming after each match; a failed start position advances by
one character.  The fuel argument (instantiated with the text length, an
upper bound since every step consumes at least one character) makes the
recursion structural. -/
def count_urls_aux : Nat → List Char → Nat
  | 0, _ => 0
  | _, [] => 0
  | fuel + 1, c :: rest =>
      match match_url_scheme (c :: rest) with
      | some after =>
          let (n, r) := take_url_run after
          if n > 0 then 1 + count_urls_aux fuel r
          else count_urls_aux fuel rest
      | none => count_urls_aux fuel rest

/-- `len(re.findall(url_pattern, message))` from `_detect_spam`
(lines 418-419). -/
def count_urls (s : String) : Nat := count_urls_aux s.data.length s.data

/-- Number of upper-case characters of the message (`c.isupper()`;
`Char.isUpper` checks `A`-`Z`, matching Python on the ASCII data this
service handles). -/
def upper_count (s : String) : Nat := (s.data.filter Char.isUpper).length

/-- The punctuation characters probed for triple repetition (line 433). -/
def punct_chars : List Char := ['!', '@', '#', '$', '%']

/-- `any(char * 3 in message for char in "!@#$%")` (line 433). -/
def has_triple_punct (message : String) : Bool :=
  punct_chars.any (fun ch => py_in ⟨[ch, ch, ch]⟩ message)

/-- `email.split("@")[1].lower()` (line 440): the segment between the
first `@` and the next `@` or the end of the string, lower-cased (the
schema's `EmailStr` guarantees an `@` is present). -/
def split_at_sign : List Char → List Char
  | [] => []
  | c :: rest => if c == '@' then [] else c :: split_at_sign rest

/-- Everything after the first `@`. -/
def after_at_sign : List Char → List Char
  | [] => []
  | c :: rest => if c == '@' then rest else after_at_sign rest

/-- The e-mail domain as computed by `_detect_spam` (line 440). -/
def email_domain (email : String) : String :=
  pyLower ⟨split_at_sign (after_at_sign email.data)⟩

/-- `ContactService._detect_spam` (`contact_service.py`, lines 399-446):
accumulate `spam_indicators` exactly as the source does — +2 for each
denylist keyword found in the lower-cased message or subject, +3 for more
than 2 URLs in the message or +1 for 1-2 URLs, +2 when more than half of
a non-empty message is upper-case (the float test `caps_ratio > 0.5` is
exact as the rational test `2 * upper > length` for any message shorter
than 2^52 characters, since 0.5 is a binade boundary of binary floating
point), +1 for a tripled punctuation character, +3 for a disposable
e-mail domain — and report spam when the total reaches 4. -/
def detect_spam (d : ContactCreate) : Bool :=
  let message_lower := pyLower d.message
  let subject_lower := pyLower d.subject
  let s1 := spam_keywords.foldl
    (fun acc kw =>
      if py_in kw message_lower || py_in kw subject_lower then acc + 2 else acc) 0
  let urls_in_message := count_urls d.message
  let s2 := if urls_in_message > 2 then s1 + 3
            else if urls_in_message > 0 then s1 + 1
            else s1
  let s3 := if d.message.length > 0 &&
               decide (2 * upper_count d.message > d.message.length)
            then s2 + 2 else s2
  let s4 := if has_triple_punct d.message then s3 + 1 else s3
  let s5 := if suspicious_domains.any (fun sd => py_in sd (email_domain d.email))
            then s4 + 3 else s4
  decide (s5 ≥ 4)

/-- `ContactService._determine_priority` (`contact_service.py`, lines
448-470): URGENT when any high-priority trigger fires, else LOW when any
low-priority trigger fires, else NORMAL.  The Python expression
`contact_type == PARTNERSHIP and company` is truthy when the company is
present and non-empty. -/
def determine_contact_priority (d : ContactCreate) : ContactPriority :=
  let high_priority_conditions : List Bool :=
    [ decide (d.contact_type = ContactType.complaint),
      py_in "urgent" (pyLower d.subject),
      py_in "asap" (pyLower d.message),
      py_in "immediately" (pyLower d.message),
      decide (d.contact_type = ContactType.partnership) &&
        (match d.company with | some s => !s.isEmpty | none => false) ]
  let low_priority_conditions : List Bool :=
    [ decide (d.contact_type = ContactType.feedback),
      d.is_newsletter_signup ]
  if high_priority_conditions.any id then ContactPriority.urgent
  else if low_priority_conditions.any id then ContactPriority.low
  else ContactPriority.normal

/-- An outbound e-mail request handed to the email collaborator
(`email_service`); dispatch is recorded, not performed. -/
inductive EmailMsg
  | contact_confirmation (contact_id : Nat) (to_email : String)
  | admin_notification (kind : String) (record_id : Nat)
  deriving DecidableEq

/-- `ContactService._validate_contact_creation` (`contact_service.py`,
lines 385-397): reject when any stored contact has the submission's
lower-cased e-mail and was created within the last hour (3600 seconds). -/
def validate_contact_creation (db : List Contact) (now : Int)
    (d : ContactCreate) : Except String Unit :=
  let one_hour_ago := now - 3600
  match db.find? (fun c =>
      c.email == pyLower d.email && decide (c.created_at ≥ one_hour_ago)) with
  | some _ =>
      .error "A contact inquiry from this email was already submitted recently"
  | none => .ok ()

/-- `ContactService.create_contact` (`contact_service.py`, lines 27-91):
validate, classify spam and priority, persist the row with status NEW and
`requires_follow_up = not is_spam`, and request the confirmation and
admin-notification e-mails only when the inquiry is not spam.  A
validation failure leaves the store untouched (the session is rolled
back) and no e-mail is requested. -/
def create_contact (db : List Contact) (now : Int) (next_id : Nat)
    (d : ContactCreate) : Except String (List Contact × Contact × List EmailMsg) :=
  match validate_contact_creation db now d with
  | .error e => .error e
  | .ok _ =>
      let is_spam := detect_spam d
      let priority := determine_contact_priority d
      let c : Contact :=
        { id := next_id
          name := d.name
          email := pyLower d.email
          company := d.company
          subject := d.subject
          message := d.message
          contact_type := d.contact_type
          source := d.source
          is_newsletter_signup := d.is_newsletter_signup
          status := ContactStatus.new
          priority := priority
          is_spam := is_spam
          requires_follow_up := !is_spam
          created_at := now
          updated_at := none
          replied_at := none
          read_at := none }
      let msgs : List EmailMsg :=
        if is_spam then []
        else [ EmailMsg.contact_confirmation next_id c.email,
               EmailMsg.admin_notification "contact" next_id ]
      .ok (db ++ [c], c, msgs)

/-- The store after a `create_contact` call: unchanged on rejection. -/
def contact_step (db : List Contact) (now : Int) (next_id : Nat)
    (d : ContactCreate) : List Contact :=
  match create_contact db now next_id d with
  | .error _ => db
  | .ok (db2, _, _) => db2

/-- `ContactService.get_contact`: first row with the given id. -/
def get_contact (db : List Contact) (contact_id : Nat) : Option Contact :=
  db.find? (fun c => c.id == contact_id)

/-- `ContactService.delete_contact` (`contact_service.py`, lines 158-168):
`self.db.delete(contact)` — the fetched row is removed from the store
outright ("Permanently delete contact"). -/
def delete_contact (db : List Contact) (contact_id : Nat) :
    List Contact × Bool :=
  match get_contact db contact_id with
  | none => (db, false)
  | some _ => (db.eraseP (fun c => c.id == contact_id), true)

/-- `ContactService.mark_as_spam` (`contact_service.py`, lines 185-202):
soft-flag the row, clearing `requires_follow_up` when flagging as spam. -/
def mark_as_spam (now : Int) (db : List Contact) (contact_id : Nat)
    (is_spam : Bool := true) : List Contact × Option Contact :=
  match get_contact db contact_id with
  | none => (db, none)
  | some c =>
      let c2 := { c with is_spam := is_spam, updated_at := some now }
      let c3 := if is_spam then { c2 with requires_follow_up := false } else c2
      (modify_first (fun x => x.id == contact_id) (fun _ => c3) db, some c3)

/-! ## Theorems -/

/-- Helper: `any(l)` of a boolean list fires exactly when at least one
entry is true, i.e. when the count of true entries is at least 1. -/
theorem list_any_id_eq_countP (l : List Bool) :
    l.any id = decide (1 ≤ l.countP id) := by
  induction l with
  | nil => rfl
  | cons b t ih =>
      cases b <;> simp [List.any_cons, List.countP_cons, ih]

/-- C6: the budget-consistency rule of the `BookingCreate` schema passes
exactly when it is not the case that both budgets are present with
`budget_max < budget_min`; in the failing case the validator rejects the
value with the budget-range error. -/
theorem budget_rule_fails_iff_max_lt_min (bmin v : Option Rat) :
    (validate_budget_range bmin v = .ok v ↔
       ∀ lo hi, bmin = some lo → v = some hi → lo ≤ hi) ∧
    (validate_budget_range bmin v =
        .error "Maximum budget must be greater than minimum budget" ↔
       ∃ lo hi, bmin = some lo ∧ v = some hi ∧ hi < lo) := by
  cases bmin with
  | none => cases v <;> simp [validate_budget_range]
  | some lo =>
      cases v with
      | none => simp [validate_budget_range]
      | some hi =>
          simp only [validate_budget_range]
          split_ifs with h
          · simp only [reduceCtorEq, false_iff, Except.error.injEq, true_iff]
            constructor
            · intro hc
              exact absurd (hc lo hi rfl rfl) (not_le.mpr h)
            · exact ⟨lo, hi, rfl, rfl, h⟩
          · simp only [Option.some.injEq, reduceCtorEq, false_iff, true_iff]
            constructor
            · rintro lo' hi' rfl rfl
              simpa using not_lt.mp h
            · rintro ⟨lo', hi', hlo, hhi, hlt⟩
              cases hlo; cases hhi
              exact absurd hlt h

/-- The priority-factor list as the specification describes it (days
until event at most 30, at least 100 guests, `budget_min` at or above the
high-budget threshold of 10000, the designated corporate category, and a
returning client), written down only to compare the spec text against the
implemented `_determine_priority`. -/
def spec_priority_factors (today : Int) (d : BookingCreate) : List Bool :=
  [ decide (d.event_date - today ≤ 30),
    decide (d.guest_count ≥ 100),
    (match d.budget_min with
     | some m => decide (m ≥ 10000)
     | none => false),
    decide (d.event_type = EventType.corporate),
    d.previous_client ]

/-- A submission whose only firing factor is its guest count: 250 guests,
event 100 days out, no stated budget, a birthday, a new client. -/
def large_birthday : BookingCreate :=
  { event_type := EventType.birthday
    event_date := 100
    guest_count := 250
    budget_min := none
    budget_max := none
    budget_flexible := true
    contact_name := "Ann"
    contact_email := "Ann@X.com"
    previous_client := false }

/-- C2 counterexample: the claim says a single true factor yields
`priority = false` (priority iff at least two of the spec factors hold).
On `large_birthday` exactly one factor holds — under the spec list and the
implemented list alike — yet `_determine_priority` returns true, because
the source computes `any(priority_conditions)`. -/
theorem single_factor_sets_priority :
    determine_priority 0 large_birthday = true ∧
    (spec_priority_factors 0 large_birthday).countP id = 1 ∧
    (priority_conditions 0 large_birthday).countP id = 1 := by
  refine ⟨by decide, by decide, by decide⟩

/-- C2 amended: `_determine_priority` marks a booking as priority exactly
when at least ONE of its five factors is true (more than 200 guests,
truthy `budget_min` above 10000, event within 60 days, corporate event,
previous client) — a single-factor trigger, not the two-factor threshold
the claim states. -/
theorem priority_iff_at_least_one_factor (today : Int) (d : BookingCreate) :
    determine_priority today d =
      decide (1 ≤ (priority_conditions today d).countP id) :=
  list_any_id_eq_countP (priority_conditions today d)

/-- C5: for a submission that clears the duplicate check, the validation
pipeline raises the DATE_TOO_FAR error exactly when the event date lies
strictly beyond today + 730 days, so the 730-day horizon itself is
accepted by this rule and today + 731 is rejected. -/
theorem date_horizon_730_inclusive (db : List Booking) (today : Int)
    (d : BookingCreate) (hnc : booking_conflict db d = none) :
    validate_booking_creation db today d = .error (.date_too_far (today + 730)) ↔
      d.event_date > today + 730 := by
  simp only [validate_booking_creation, hnc]
  split_ifs with h1 h2
  · simp [h1]
  · simp [h1, h2]
  · simp [h1, h2]

/-- A submission for two years and a day from now. -/
def far_future_booking : BookingCreate :=
  { event_type := EventType.graduation
    event_date := 731
    guest_count := 20
    budget_min := none
    budget_max := none
    budget_flexible := true
    contact_name := "Joe"
    contact_email := "Joe@X.com"
    previous_client := false }

/-- C5 witness: on an empty store, an event 731 days out is rejected with
DATE_TOO_FAR. -/
theorem date_horizon_730_inclusive_witness :
    booking_conflict [] far_future_booking = none ∧
    validate_booking_creation [] 0 far_future_booking =
      .error (.date_too_far (0 + 730)) :=
  ⟨rfl, (date_horizon_730_inclusive [] 0 far_future_booking rfl).mpr (by decide)⟩

/-- A 60-guest event submitted one day ahead. -/
def tomorrow_large_event : BookingCreate :=
  { event_type := EventType.corporate
    event_date := 1
    guest_count := 60
    budget_min := none
    budget_max := none
    budget_flexible := true
    contact_name := "Kim"
    contact_email := "Kim@X.com"
    previous_client := false }

/-- C3 counterexample: the claim announces a `MINIMUM_TIMEFRAME_ERROR`
whose rush flag is true exactly when `guest_count ≤ 50` or
`days_until_event ≥ 3`.  For a 60-guest event one day ahead neither
disjunct holds, yet the code rejects with error code
`SHORT_NOTICE_LARGE_EVENT`, no `minimum_days` payload field, and
`rush_booking_available` hard-coded to true. -/
theorem short_notice_rush_flag_counterexample :
    validate_booking_creation [] 0 tomorrow_large_event =
      .error (.short_notice_large_event 1 60 true) ∧
    BookingError.error_code (.short_notice_large_event 1 60 true) =
      "SHORT_NOTICE_LARGE_EVENT" ∧
    ¬ ((60 : Nat) ≤ 50 ∨ (1 : Int) ≥ 3) :=
  ⟨rfl, rfl, by decide⟩

/-- C3 amended: for a submission that clears the duplicate and horizon
checks, validation fails exactly when the event is less than 7 days away
AND has more than 50 guests, with the typed error
`SHORT_NOTICE_LARGE_EVENT` carrying `days_until_event`, `guest_count`,
and `rush_booking_available = true` unconditionally; submissions with at
most 50 guests pass the whole pipeline regardless of notice. -/
theorem short_notice_rule (db : List Booking) (today : Int)
    (d : BookingCreate) (hnc : booking_conflict db d = none)
    (hd : d.event_date ≤ today + 730) :
    (validate_booking_creation db today d =
        .error (.short_notice_large_event (d.event_date - today) d.guest_count
          true) ↔
      (d.event_date - today < 7 ∧ d.guest_count > 50)) ∧
    (validate_booking_creation db today d = .ok () ↔
      ¬ (d.event_date - today < 7 ∧ d.guest_count > 50)) := by
  simp only [validate_booking_creation, hnc]
  split_ifs with h1 h2
  · omega
  · simp [h2]
  · simp [h2]

/-- C3 witness: the 60-guest event three days out (the specification's
own scenario) is rejected by the short-notice rule. -/
theorem short_notice_rule_witness :
    booking_conflict [] { tomorrow_large_event with event_date := 3 } = none ∧
    (3 : Int) ≤ 0 + 730 ∧
    validate_booking_creation [] 0 { tomorrow_large_event with event_date := 3 } =
      .error (.short_notice_large_event 3 60 true) :=
  ⟨rfl, by decide,
    ((short_notice_rule [] 0 { tomorrow_large_event with event_date := 3 }
      rfl (by decide)).1).mpr (by decide)⟩

/-- Two stored bookings conflict when they share contact e-mail and event
date and neither is cancelled; the central uniqueness invariant forbids a
store from containing a conflicting pair. -/
def conflicting (a b : Booking) : Prop :=
  a.contact_email = b.contact_email ∧ a.event_date = b.event_date ∧
  a.status ≠ BookingStatus.cancelled ∧ b.status ≠ BookingStatus.cancelled

instance (a b : Booking) : Decidable (conflicting a b) := by
  unfold conflicting
  infer_instance

/-- At most one non-cancelled booking per (e-mail, event date) pair. -/
def unique_active (db : List Booking) : Prop :=
  db.Pairwise (fun a b => ¬ conflicting a b)

/-- Helper: a successful `create_booking` appends a fresh PENDING row
whose key was just checked to be conflict-free, so the uniqueness
invariant survives. -/
theorem create_booking_preserves_unique (db : List Booking) (today now : Int)
    (next_id : Nat) (d : BookingCreate) (db2 : List Booking) (b : Booking)
    (hu : unique_active db)
    (hok : create_booking db today now next_id d = .ok (db2, b)) :
    unique_active db2 := by
  unfold create_booking at hok
  cases hval : validate_booking_creation db today d with
  | error e => rw [hval] at hok; exact absurd hok (by simp)
  | ok u =>
      rw [hval] at hok
      simp only [Except.ok.injEq, Prod.mk.injEq] at hok
      obtain ⟨hdb2, hb⟩ := hok
      have hc : booking_conflict db d = none := by
        unfold validate_booking_creation at hval
        cases hc : booking_conflict db d with
        | none => rfl
        | some existing => rw [hc] at hval; exact absurd hval (by simp)
      have hnotfound := List.find?_eq_none.mp hc
      subst hdb2
      unfold unique_active
      rw [List.pairwise_append]
      refine ⟨hu, List.pairwise_singleton _ _, ?_⟩
      intro a ha nb hnb
      simp only [List.mem_singleton] at hnb
      subst hnb
      intro hconf
      apply hnotfound a ha
      obtain ⟨he, hd2, hs, _⟩ := hconf
      have he2 : a.contact_email = pyLower d.contact_email := he
      have hd3 : a.event_date = d.event_date := hd2
      rw [he2, hd3]
      simp [hs]

/-- Helper: processing any sequence of submissions through
`create_booking` preserves the uniqueness invariant. -/
theorem process_bookings_preserves_unique (today now : Int) :
    ∀ (ds : List BookingCreate) (db : List Booking) (next_id : Nat),
      unique_active db →
      unique_active (process_bookings today now db next_id ds) := by
  intro ds
  induction ds with
  | nil => intro db next_id hu; exact hu
  | cons d rest ih =>
      intro db next_id hu
      unfold process_bookings
      cases hres : create_booking db today now next_id d with
      | error e => exact ih db next_id hu
      | ok p =>
          obtain ⟨db2, b⟩ := p
          exact ih db2 (next_id + 1)
            (create_booking_preserves_unique db today now next_id d db2 b hu hres)

/-- C1: starting from a store satisfying the uniqueness invariant, any
sequence of submissions processed through `create_booking` keeps at most
one non-cancelled booking per (lower-cased e-mail, event date) pair; and
a submission that matches an existing non-cancelled booking is rejected
with the DUPLICATE_BOOKING typed error, persisting nothing (the `.error`
branch of `process_bookings` leaves the store untouched). -/
theorem duplicate_booking_invariant (today now : Int) (db : List Booking)
    (next_id : Nat) (ds : List BookingCreate) (d : BookingCreate)
    (hu : unique_active db) :
    unique_active (process_bookings today now db next_id ds) ∧
    ∀ existing, booking_conflict db d = some existing →
      create_booking db today now next_id d =
        .error (.duplicate_booking existing.id (reference_number existing.id)
          existing.status) := by
  refine ⟨process_bookings_preserves_unique today now ds db next_id hu, ?_⟩
  intro existing hfound
  simp [create_booking, validate_booking_creation, hfound]

/-- A stored pending booking for ann@x.com on day 40. -/
def ann_booking : Booking :=
  { id := 1
    event_type := EventType.wedding
    event_date := 40
    guest_count := 80
    budget_min := none
    budget_max := none
    contact_name := "Ann"
    contact_email := "ann@x.com"
    previous_client := false
    status := BookingStatus.pending
    admin_notes := none
    is_priority := false
    is_archived := false
    requires_consultation := true
    created_at := 0
    updated_at := none
    contacted_at := none
    quoted_at := none }

/-- A second submission by Ann for the same date (different case in the
e-mail). -/
def ann_resubmission : BookingCreate :=
  { event_type := EventType.wedding
    event_date := 40
    guest_count := 80
    budget_min := none
    budget_max := none
    budget_flexible := true
    contact_name := "Ann"
    contact_email := "Ann@X.com"
    previous_client := false }

/-- C1 witness: a store holding Ann's pending booking satisfies the
invariant, keeps satisfying it after reprocessing her submission, and the
resubmission is rejected with DUPLICATE_BOOKING. -/
theorem duplicate_booking_invariant_witness :
    unique_active [ann_booking] ∧
    (unique_active (process_bookings 0 0 [ann_booking] 2 [ann_resubmission]) ∧
     ∀ existing, booking_conflict [ann_booking] ann_resubmission = some existing →
       create_booking [ann_booking] 0 0 2 ann_resubmission =
         .error (.duplicate_booking existing.id (reference_number existing.id)
           existing.status)) :=
  ⟨by simp [unique_active],
   duplicate_booking_invariant 0 0 [ann_booking] 2 [ann_resubmission]
     ann_resubmission (by simp [unique_active])⟩

/-- An admin update that only sets the status to CONTACTED. -/
def contacted_update : BookingUpdate := { status := some BookingStatus.contacted }

/-- An admin update that only sets the status to QUOTED. -/
def quoted_update : BookingUpdate := { status := some BookingStatus.quoted }

/-- C9: updating a booking to CONTACTED stamps `contacted_at` only when
it is unset, and re-entering the status later leaves the original stamp
unchanged; symmetrically for QUOTED and `quoted_at`. -/
theorem status_timestamps_stamp_once (b : Booking) (now later : Int) :
    (b.contacted_at = none →
      (update_booking_record now b contacted_update).contacted_at = some now ∧
      (update_booking_record later
          (update_booking_record now b contacted_update)
          contacted_update).contacted_at = some now) ∧
    (∀ t, b.contacted_at = some t →
      (update_booking_record now b contacted_update).contacted_at = some t) ∧
    (b.quoted_at = none →
      (update_booking_record now b quoted_update).quoted_at = some now ∧
      (update_booking_record later
          (update_booking_record now b quoted_update)
          quoted_update).quoted_at = some now) ∧
    (∀ t, b.quoted_at = some t →
      (update_booking_record now b quoted_update).quoted_at = some t) := by
  refine ⟨?_, ?_, ?_, ?_⟩
  · intro h
    simp [update_booking_record, apply_update_fields, contacted_update, h]
  · intro t h
    simp [update_booking_record, apply_update_fields, contacted_update, h]
  · intro h
    simp [update_booking_record, apply_update_fields, quoted_update, h]
  · intro t h
    simp [update_booking_record, apply_update_fields, quoted_update, h]

/-- A freshly created pending booking that has never been contacted. -/
def fresh_booking : Booking :=
  { id := 7
    event_type := EventType.corporate
    event_date := 90
    guest_count := 120
    budget_min := none
    budget_max := none
    contact_name := "Lee"
    contact_email := "lee@x.com"
    previous_client := false
    status := BookingStatus.pending
    admin_notes := none
    is_priority := true
    is_archived := false
    requires_consultation := true
    created_at := 0
    updated_at := none
    contacted_at := none
    quoted_at := none }

/-- C9 witness: on a never-contacted booking, updating to CONTACTED at
time 5 stamps `contacted_at = 5`, and re-entering CONTACTED at time 9
leaves the stamp at 5. -/
theorem status_timestamps_stamp_once_witness :
    fresh_booking.contacted_at = none ∧
    (update_booking_record 5 fresh_booking contacted_update).contacted_at =
      some 5 ∧
    (update_booking_record 9
        (update_booking_record 5 fresh_booking contacted_update)
        contacted_update).contacted_at = some 5 :=
  ⟨rfl, ((status_timestamps_stamp_once fresh_booking 5 9).1 rfl).1,
    ((status_timestamps_stamp_once fresh_booking 5 9).1 rfl).2⟩

/-- A stored contact inquiry with id 3. -/
def stored_contact : Contact :=
  { id := 3
    name := "Sam"
    email := "sam@x.com"
    company := none
    subject := "Availability in June"
    message := "Is the second weekend of June free?"
    contact_type := ContactType.availability
    source := none
    is_newsletter_signup := false
    status := ContactStatus.new
    priority := ContactPriority.normal
    is_spam := false
    requires_follow_up := true
    created_at := 0
    updated_at := none
    replied_at := none
    read_at := none }

/-- C8 counterexample: the claim says no service operation removes a
stored inquiry, yet `ContactService.delete_contact` removes the row from
the store outright — after deleting contact 3 the record is no longer
retrievable. -/
theorem contact_delete_removes_record :
    delete_contact [stored_contact] 3 = ([], true) ∧
    get_contact (delete_contact [stored_contact] 3).1 3 = none :=
  ⟨rfl, rfl⟩

/-- Helper: modifying the first id-match of a list with an id-preserving
function moves the lookup of that id to the modified row. -/
theorem find?_modify_first_id (id : Nat) (f : Booking → Booking)
    (hf : ∀ x, (f x).id = x.id) :
    ∀ (l : List Booking) (b : Booking),
      l.find? (fun x => x.id == id) = some b →
      (modify_first (fun x => x.id == id) f l).find? (fun x => x.id == id) =
        some (f b) := by
  intro l
  induction l with
  | nil => intro b h; simp [List.find?] at h
  | cons x xs ih =>
      intro b h
      by_cases hx : (x.id == id) = true
      · have hcons : (x :: xs).find? (fun y => y.id == id) = some x :=
          List.find?_cons_of_pos xs hx
        rw [hcons] at h
        obtain rfl : x = b := by injection h
        have hfx : ((f x).id == id) = true := by rw [hf x]; exact hx
        simp only [modify_first, if_pos hx]
        exact List.find?_cons_of_pos xs hfx
      · have hcons : (x :: xs).find? (fun y => y.id == id) =
            xs.find? (fun y => y.id == id) :=
          List.find?_cons_of_neg xs hx
        rw [hcons] at h
        simp only [modify_first, if_neg hx]
        have hcons2 : (x :: modify_first (fun y => y.id == id) f xs).find?
            (fun y => y.id == id) =
            (modify_first (fun y => y.id == id) f xs).find? (fun y => y.id == id) :=
          List.find?_cons_of_neg _ hx
        rw [hcons2]
        exact ih b h

/-- C8 amended: a booking delete request only archives the booking — the
row stays in the store, retrievable with `is_archived = true` and a
refreshed `updated_at` — whereas a stored contact CAN be removed
permanently by `delete_contact` (soft-flagging is a separate operation,
`mark_as_spam`). -/
theorem booking_delete_only_archives (now : Int) (db : List Booking)
    (booking_id : Nat) (b : Booking)
    (hfound : get_booking db booking_id = some b) :
    (delete_booking now db booking_id).2 = true ∧
    get_booking (delete_booking now db booking_id).1 booking_id =
      some { b with is_archived := true, updated_at := some now } := by
  unfold delete_booking
  rw [hfound]
  unfold get_booking at hfound ⊢
  exact ⟨rfl,
    find?_modify_first_id booking_id
      (fun x => { x with is_archived := true, updated_at := some now })
      (fun x => rfl) db b hfound⟩

/-- C8 witness: archiving the stored booking of id 1 keeps it
retrievable, flagged archived. -/
theorem booking_delete_only_archives_witness :
    get_booking [ann_booking] 1 = some ann_booking ∧
    (delete_booking 6 [ann_booking] 1).2 = true ∧
    get_booking (delete_booking 6 [ann_booking] 1).1 1 =
      some { ann_booking with is_archived := true, updated_at := some 6 } :=
  ⟨rfl, (booking_delete_only_archives 6 [ann_booking] 1 ann_booking rfl).1,
    (booking_delete_only_archives 6 [ann_booking] 1 ann_booking rfl).2⟩

/-- The claim's additive reading of the spam score, component one:
+2 per denylist keyword present in the message or the subject. -/
def keyword_score (d : ContactCreate) : Nat :=
  2 * spam_keywords.countP
    (fun kw => py_in kw (pyLower d.message) || py_in kw (pyLower d.subject))

/-- Component two: +3 for more than 2 URLs in the message, +1 for 1-2. -/
def url_score (d : ContactCreate) : Nat :=
  if count_urls d.message > 2 then 3
  else if count_urls d.message > 0 then 1
  else 0

/-- Component three: +2 when over half of a non-empty message is
upper-case. -/
def caps_score (d : ContactCreate) : Nat :=
  if d.message.length > 0 &&
     decide (2 * upper_count d.message > d.message.length)
  then 2 else 0

/-- Component four: +1 for a punctuation character tripled in a row. -/
def punct_score (d : ContactCreate) : Nat :=
  if has_triple_punct d.message then 1 else 0

/-- Component five: +3 when the sender's e-mail domain matches the
disposable-domain list. -/
def domain_score (d : ContactCreate) : Nat :=
  if suspicious_domains.any (fun sd => py_in sd (email_domain d.email))
  then 3 else 0

/-- The accumulated spam score as the claim describes it: an
order-independent sum of the five independent components. -/
def spam_score (d : ContactCreate) : Nat :=
  keyword_score d + url_score d + caps_score d + punct_score d + domain_score d

/-- Helper: folding `acc + 2` over the hits of a predicate adds twice the
hit count. -/
theorem foldl_add_two_eq_countP (p : String → Bool) :
    ∀ (l : List String) (n : Nat),
      l.foldl (fun acc kw => if p kw then acc + 2 else acc) n =
        n + 2 * l.countP p := by
  intro l
  induction l with
  | nil => intro n; simp
  | cons kw rest ih =>
      intro n
      by_cases h : p kw = true
      · simp only [List.foldl_cons, if_pos h, ih, List.countP_cons, h,
          if_true]
        omega
      · simp only [List.foldl_cons, if_neg h, ih, List.countP_cons]
        omega

/-- C4: `_detect_spam` reports spam exactly when the additive spam score
— +2 per denylist keyword hit in subject or message, +3 for more than two
URLs or +1 for one or two, +2 for a majority-upper-case message, +1 for a
tripled punctuation character, +3 for a disposable sender domain —
reaches the fixed threshold 4; in particular a total of 3 is not spam and
a total of 4 is. -/
theorem spam_verdict_iff_score_ge_four (d : ContactCreate) :
    detect_spam d = decide (4 ≤ spam_score d) := by
  simp only [detect_spam, spam_score, keyword_score, url_score, caps_score,
    punct_score, domain_score, foldl_add_two_eq_countP, Nat.zero_add]
  split_ifs <;> rfl

/-- C7: whenever `create_contact` accepts a submission, the record is
persisted with `is_spam` set by the detector and
`requires_follow_up = not is_spam`, and the notification requests are
empty for spam but are exactly the submitter confirmation plus the admin
notification otherwise. -/
theorem spam_contacts_persisted_not_notified (db : List Contact) (now : Int)
    (next_id : Nat) (d : ContactCreate)
    (hval : validate_contact_creation db now d = .ok ()) :
    ∃ db2 c msgs, create_contact db now next_id d = .ok (db2, c, msgs) ∧
      c.is_spam = detect_spam d ∧
      c.requires_follow_up = (!detect_spam d) ∧
      c ∈ db2 ∧
      msgs = (if detect_spam d then []
              else [EmailMsg.contact_confirmation next_id (pyLower d.email),
                    EmailMsg.admin_notification "contact" next_id]) := by
  unfold create_contact
  rw [hval]
  refine ⟨_, _, _, rfl, rfl, rfl, ?_, rfl⟩
  exact List.mem_append_right db (List.mem_singleton.mpr rfl)

/-- The specification's own spam scenario: a message holding the keyword
lottery and three URLs (score 2 + 3 = 5). -/
def lottery_submission : ContactCreate :=
  { name := "Bob"
    email := "bob@example.com"
    company := none
    subject := "Question about events"
    message := "lottery http://a http://b http://c"
    contact_type := ContactType.general
    source := none
    is_newsletter_signup := false }

/-- C7 witness: on an empty store the lottery submission is accepted,
classified as spam, persisted with `requires_follow_up = false`, and no
e-mail is requested. -/
theorem spam_contacts_persisted_not_notified_witness :
    validate_contact_creation [] 0 lottery_submission = .ok () ∧
    detect_spam lottery_submission = true ∧
    (∃ db2 c msgs,
      create_contact [] 0 1 lottery_submission = .ok (db2, c, msgs) ∧
      c.is_spam = detect_spam lottery_submission ∧
      c.requires_follow_up = (!detect_spam lottery_submission) ∧
      c ∈ db2 ∧
      msgs = (if detect_spam lottery_submission then []
              else [EmailMsg.contact_confirmation 1
                      (pyLower lottery_submission.email),
                    EmailMsg.admin_notification "contact" 1])) :=
  ⟨rfl, by decide,
    spam_contacts_persisted_not_notified [] 0 1 lottery_submission rfl⟩

/-- C10: if any stored contact record carries the submission's
lower-cased e-mail and was created within the last hour, `create_contact`
rejects the submission with the recent-duplicate validation error and the
store is left unchanged — independently of the new subject, message or
contact type. -/
theorem contact_hour_window_rejects (db : List Contact) (now : Int)
    (next_id : Nat) (d : ContactCreate) (c : Contact) (hc : c ∈ db)
    (hemail : c.email = pyLower d.email)
    (hrecent : c.created_at ≥ now - 3600) :
    create_contact db now next_id d =
      .error "A contact inquiry from this email was already submitted recently" ∧
    contact_step db now next_id d = db := by
  have hval : validate_contact_creation db now d =
      .error "A contact inquiry from this email was already submitted recently" := by
    simp only [validate_contact_creation]
    split
    · rfl
    · rename_i heq
      exfalso
      have hnone := List.find?_eq_none.mp heq c hc
      apply hnone
      simp [hemail, hrecent]
  constructor
  · simp [create_contact, hval]
  · simp [contact_step, create_contact, hval]

/-- A contact record for sam@x.com stored at time 0. -/
def recent_contact : Contact :=
  { id := 4
    name := "Sam"
    email := "sam@x.com"
    company := none
    subject := "Booking question"
    message := "Do you cover the north side of town?"
    contact_type := ContactType.general
    source := none
    is_newsletter_signup := false
    status := ContactStatus.new
    priority := ContactPriority.normal
    is_spam := false
    requires_follow_up := true
    created_at := 0
    updated_at := none
    replied_at := none
    read_at := none }

/-- A different inquiry from the same address half an hour later. -/
def sam_resubmission : ContactCreate :=
  { name := "Sam"
    email := "Sam@X.com"
    company := none
    subject := "Totally different subject"
    message := "An unrelated question about pricing."
    contact_type := ContactType.pricing
    source := none
    is_newsletter_signup := false }

/-- C10 witness: Sam's second inquiry 1800 seconds after the first is
rejected and the store is unchanged. -/
theorem contact_hour_window_rejects_witness :
    recent_contact ∈ [recent_contact] ∧
    recent_contact.email = pyLower sam_resubmission.email ∧
    recent_contact.created_at ≥ (1800 : Int) - 3600 ∧
    (create_contact [recent_contact] 1800 2 sam_resubmission =
      .error "A contact inquiry from this email was already submitted recently" ∧
     contact_step [recent_contact] 1800 2 sam_resubmission = [recent_contact]) :=
  ⟨List.mem_singleton.mpr rfl, rfl, by decide,
    contact_hour_window_rejects [recent_contact] 1800 2 sam_resubmission
      recent_contact (List.mem_singleton.mpr rfl) rfl (by decide)⟩
